import Mathlib

/-!
# Verification of the single-slot anonymous confession board

Shallow embedding of the confession DApp's core: the board state machine
(`postConfession`, `vote`), the identity deriver (`anonymousId`), the state
reconciler (`ConfessionAPI.toDerivedState`) and the private-state accessor
(`ConfessionAPI.resolvePrivateState`).

The ledger layout and the reconciler are translated from the TypeScript
sources (`api/src/index.ts`, `contract/src/witnesses.ts`, the simulator and
its vitest suite).  The compiled Compact circuits themselves
(`managed/confession/contract/index.cjs`) are not part of the available
sources, so `postConfession`, `vote` and `anonymousId` are modelled from the
specification (§4.1, §4.2), with bigint counters as `Nat` and byte strings as
`List Nat`.
-/

/-- A byte string (`Uint8Array` in the source) as a list of naturals. -/
abbrev Bytes := List Nat

/-- Caller-local private state, from `contract/src/witnesses.ts`:
`ConfessionPrivateState = { readonly secretKey: Uint8Array }`. -/
structure ConfessionPrivateState where
  secretKey : Bytes
deriving DecidableEq, Repr

/-- From `contract/src/witnesses.ts`:
`createConfessionPrivateState = (secretKey) => ({ secretKey })`. -/
def createConfessionPrivateState (secretKey : Bytes) : ConfessionPrivateState :=
  { secretKey }

/-- Public ledger state of the confession contract, with the fields the
sources read from `ledger(state)`: `confessionCount`, `confession0`
(a `Maybe<string>`, split into its `is_some` flag and `value` payload),
`confession0Author`, `confession0Upvotes`, `confession0Downvotes`,
`confession0Timestamp`.  Counters are bigints, modelled as `Nat`; the
author tag is a 32-byte value, modelled as a `Nat` code. -/
structure Ledger where
  confessionCount : Nat
  confession0_is_some : Bool
  confession0_value : String
  confession0Author : Nat
  confession0Upvotes : Nat
  confession0Downvotes : Nat
  confession0Timestamp : Nat
deriving DecidableEq, Repr

/-- Board genesis: all-zero/empty ledger (simulator's `initialState`;
the vitest suite checks count 0, no confession, zero tallies). -/
def genesisLedger : Ledger :=
  { confessionCount := 0
    confession0_is_some := false
    confession0_value := ""
    confession0Author := 0
    confession0Upvotes := 0
    confession0Downvotes := 0
    confession0Timestamp := 0 }

/-- Injective encoding of a byte string into a natural number, used to build
the idealized hash below. -/
def encodeBytes : Bytes → Nat
  | [] => 0
  | b :: bs => Nat.pair b (encodeBytes bs) + 1

/-- Modelled from the spec: the Identity Deriver `derive(credential, slot_id)`
(§4.2), realized by the `anonymousId` pure circuit of the managed contract,
which is not among the available sources.  The spec requires a deterministic,
one-way, collision-resistant commitment over `credential` and `slot_id`;
collision resistance is idealized as injectivity of the pair encoding.
The `+ 1` keeps every derived tag distinct from the genesis (all-zero)
author field. -/
def anonymousId (credential : Bytes) (slotId : Nat) : Nat :=
  Nat.pair (encodeBytes credential) slotId + 1

/-- The two precondition-violation errors of the board state machine (§7);
the simulator tests observe them as the thrown messages
"Board already has a confession" and "No confession to vote on". -/
inductive ConfessionError where
  | alreadyOccupied
  | noActiveConfession
deriving DecidableEq, Repr

/-- Modelled from the spec: the `postConfession` circuit (§4.1 `post`), not
among the available sources.  Precondition `Empty`; on success stores the
content and timestamp, resets both tallies to zero, tags the slot with
`anonymousId` at the pre-increment value of `total_posts` (the new slot's
ordinal id), and increments `total_posts`; when the slot is occupied it
fails with `AlreadyOccupied` and returns the state unchanged. -/
def postConfession (credential : Bytes) (content : String) (timestamp : Nat)
    (st : Ledger) : Ledger × Option ConfessionError :=
  if st.confession0_is_some then
    (st, some ConfessionError.alreadyOccupied)
  else
    ({ confessionCount := st.confessionCount + 1
       confession0_is_some := true
       confession0_value := content
       confession0Author := anonymousId credential st.confessionCount
       confession0Upvotes := 0
       confession0Downvotes := 0
       confession0Timestamp := timestamp }, none)

/-- Modelled from the spec: the `vote` circuit (§4.1 `vote`), not among the
available sources.  Precondition `Occupied`; increments the chosen tally
(the simulator passes `isUpvote ? 1n : 0n`); when the slot is empty it
fails with `NoActiveConfession` and returns the state unchanged. -/
def vote (isUpvote : Bool) (st : Ledger) : Ledger × Option ConfessionError :=
  if st.confession0_is_some then
    (if isUpvote then
        ({ st with confession0Upvotes := st.confession0Upvotes + 1 }, none)
      else
        ({ st with confession0Downvotes := st.confession0Downvotes + 1 }, none))
  else
    (st, some ConfessionError.noActiveConfession)

/-- Derived state shape, from `api/src/common-types.ts`
`ConfessionBoardDerivedState`.  `authorHex` is the hex rendering of the
author tag; since `toHex` is injective the tag code itself stands for it. -/
structure ConfessionBoardDerivedState where
  confessionCount : Nat
  currentConfessionId : Option Nat
  hasConfession : Bool
  content : Option String
  timestamp : Option Nat
  upvotes : Nat
  downvotes : Nat
  authorHex : Option Nat
  isAuthor : Bool
deriving DecidableEq, Repr

/-- Translated from `ConfessionAPI.toDerivedState` (api/src/index.ts):
`currentConfessionId = hasConfession ? (confessionCount > 0n ? confessionCount - 1n : 0n) : null`;
`authorHex = hasConfession ? toHex(confession0Author) : null`;
`isAuthor` is false unless both are non-null, in which case it compares
`pureCircuits.anonymousId(privateState.secretKey, currentConfessionId)`
with the stored author. -/
def toDerivedState (ledgerState : Ledger) (privateState : ConfessionPrivateState) :
    ConfessionBoardDerivedState :=
  let hasConfession := ledgerState.confession0_is_some
  let confessionCount := ledgerState.confessionCount
  let currentConfessionId : Option Nat :=
    if hasConfession then
      some (if confessionCount > 0 then confessionCount - 1 else 0)
    else none
  let authorHex : Option Nat :=
    if hasConfession then some ledgerState.confession0Author else none
  let isAuthor : Bool :=
    match authorHex, currentConfessionId with
    | some a, some cid => decide (anonymousId privateState.secretKey cid = a)
    | _, _ => false
  { confessionCount := confessionCount
    currentConfessionId := currentConfessionId
    hasConfession := hasConfession
    content := if hasConfession then some ledgerState.confession0_value else none
    timestamp := if hasConfession then some ledgerState.confession0Timestamp else none
    upvotes := ledgerState.confession0Upvotes
    downvotes := ledgerState.confession0Downvotes
    authorHex := authorHex
    isAuthor := isAuthor }

/-- Translated from `ConfessionAPI.resolvePrivateState` (api/src/index.ts):
reads the stored private state and returns it when present; otherwise
creates one from 32 fresh random bytes (`utils.randomBytes(32)`, modelled
as the explicit `fresh` input), stores it and returns it.  The result is
the returned private state paired with the store's new content. -/
def resolvePrivateState (fresh : Bytes) (store : Option ConfessionPrivateState) :
    ConfessionPrivateState × Option ConfessionPrivateState :=
  match store with
  | some existing => (existing, some existing)
  | none =>
      let newPrivateState := createConfessionPrivateState fresh
      (newPrivateState, some newPrivateState)

/-- Translated from `ConfessionAPI.postConfession` (api/src/index.ts): the
public API takes `timestamp: bigint = BigInt(Date.now())`, so an omitted
timestamp defaults to the current wall-clock milliseconds; the clock is
modelled as the explicit `now` input. -/
def apiPostConfession (credential : Bytes) (content : String)
    (timestamp : Option Nat) (now : Nat) (st : Ledger) :
    Ledger × Option ConfessionError :=
  postConfession credential content (timestamp.getD now) st

/-- A transition requested of the board state machine. -/
inductive Op where
  | post (credential : Bytes) (content : String) (timestamp : Nat)
  | vote (isUpvote : Bool)
deriving DecidableEq, Repr

/-- Apply one operation, returning the (possibly unchanged) ledger and the
error, if any. -/
def applyOp (op : Op) (st : Ledger) : Ledger × Option ConfessionError :=
  match op with
  | Op.post credential content timestamp => postConfession credential content timestamp st
  | Op.vote isUpvote => vote isUpvote st

/-- Run a sequence of operations, keeping the resulting states (failed
operations leave the state unchanged, per §7 all-or-nothing). -/
def runOps : List Op → Ledger → Ledger
  | [], st => st
  | op :: ops, st => runOps ops (applyOp op st).1

/-! ## Helper lemmas -/

/-- The byte-string encoding is injective. -/
theorem encodeBytes_injective : Function.Injective encodeBytes := by
  intro xs
  induction xs with
  | nil =>
      intro ys h
      cases ys with
      | nil => rfl
      | cons y ys => simp [encodeBytes] at h
  | cons x xs ih =>
      intro ys h
      cases ys with
      | nil => simp [encodeBytes] at h
      | cons y ys =>
          simp only [encodeBytes, Nat.add_right_cancel_iff] at h
          rcases Nat.pair_eq_pair.mp h with ⟨h1, h2⟩
          rw [h1, ih h2]

/-- The idealized identity deriver is injective in the pair of inputs. -/
theorem anonymousId_inj {c c' : Bytes} {s s' : Nat}
    (h : anonymousId c s = anonymousId c' s') : c = c' ∧ s = s' := by
  simp only [anonymousId, Nat.add_right_cancel_iff] at h
  rcases Nat.pair_eq_pair.mp h with ⟨h1, h2⟩
  exact ⟨encodeBytes_injective h1, h2⟩

/-! ## Sample states used by witnesses -/

/-- A sample 32-ish byte credential (shortened; length is irrelevant to the
idealized deriver). -/
def sampleSecret : Bytes := [1]

/-- A distinct credential belonging to a different participant. -/
def otherSecret : Bytes := [2]

/-- The ledger after one successful post from the genesis board. -/
def samplePostedLedger : Ledger :=
  (postConfession sampleSecret "hello" 1000 genesisLedger).1

/-! ## Claims -/

/-- C2 counterexample: the spec formula
`current_slot_id = total_posts == 0 ? null : total_posts - 1` fails on the
code: for the snapshot with `total_posts = 1` and the slot unoccupied, the
formula gives `0` but `toDerivedState` returns `null`. -/
theorem currentConfessionId_formula_fails_unoccupied :
    ¬ ((toDerivedState { genesisLedger with confessionCount := 1 }
          { secretKey := [] }).currentConfessionId = some (1 - 1)) := by
  decide

/-- C2 (amended): `currentConfessionId` is `null` whenever the slot is
unoccupied (whatever `total_posts` is); when the slot is occupied it equals
`total_posts - 1` if `total_posts > 0` and `0` otherwise. -/
theorem currentConfessionId_characterization (st : Ledger)
    (ps : ConfessionPrivateState) :
    (st.confession0_is_some = false →
      (toDerivedState st ps).currentConfessionId = none)
    ∧ (st.confession0_is_some = true → 0 < st.confessionCount →
      (toDerivedState st ps).currentConfessionId = some (st.confessionCount - 1))
    ∧ (st.confession0_is_some = true → st.confessionCount = 0 →
      (toDerivedState st ps).currentConfessionId = some 0) := by
  refine ⟨fun h => ?_, fun h hpos => ?_, fun h h0 => ?_⟩
  · simp [toDerivedState, h]
  · simp [toDerivedState, h, hpos]
  · simp [toDerivedState, h, h0]

/-- An occupied ledger with two posts counted, used below. -/
def twoPostLedger : Ledger :=
  { genesisLedger with confessionCount := 2, confession0_is_some := true }

/-- Witness for C2 (amended), at the unoccupied genesis board and at an
occupied board with two posts counted. -/
theorem currentConfessionId_characterization_witness :
    (toDerivedState genesisLedger { secretKey := [] }).currentConfessionId = none
    ∧ (toDerivedState twoPostLedger { secretKey := [] }).currentConfessionId
        = some 1 :=
  ⟨(currentConfessionId_characterization genesisLedger { secretKey := [] }).1 rfl,
   (currentConfessionId_characterization twoPostLedger { secretKey := [] }).2.1 rfl
     (by decide)⟩

/-- C1: for every occupied snapshot with at least one counted post (slot ids
0, 1, 2, …), `toDerivedState` reports `isAuthor = true` exactly when the
credential's derived tag at the current slot id equals the stored author
tag; in particular the credential that produced the stored tag gets `true`
and every other credential gets `false`. -/
theorem reconcile_isAuthor_iff (st : Ledger) (c c0 : Bytes)
    (hocc : st.confession0_is_some = true) (hpos : 0 < st.confessionCount) :
    ((toDerivedState st { secretKey := c }).isAuthor = true ↔
        anonymousId c (st.confessionCount - 1) = st.confession0Author)
    ∧ (st.confession0Author = anonymousId c0 (st.confessionCount - 1) →
        (toDerivedState st { secretKey := c0 }).isAuthor = true
        ∧ (c ≠ c0 → (toDerivedState st { secretKey := c }).isAuthor = false)) := by
  have hiff : ∀ b : Bytes,
      (toDerivedState st { secretKey := b }).isAuthor = true ↔
        anonymousId b (st.confessionCount - 1) = st.confession0Author := by
    intro b
    simp [toDerivedState, hocc, hpos]
  refine ⟨hiff c, fun htag => ⟨(hiff c0).mpr htag.symm, fun hne => ?_⟩⟩
  have hnot : ¬ anonymousId c (st.confessionCount - 1) = st.confession0Author := by
    rw [htag]
    intro he
    exact hne (anonymousId_inj he).1
  cases hb : (toDerivedState st { secretKey := c }).isAuthor
  · rfl
  · exact absurd ((hiff c).mp hb) hnot

/-- Witness for C1: after `sampleSecret` posts at slot id 0, reconciling with
`sampleSecret` yields `isAuthor = true` and reconciling with `otherSecret`
yields `isAuthor = false`. -/
theorem reconcile_isAuthor_iff_witness :
    (toDerivedState samplePostedLedger { secretKey := sampleSecret }).isAuthor = true
    ∧ (toDerivedState samplePostedLedger { secretKey := otherSecret }).isAuthor = false := by
  have h := reconcile_isAuthor_iff samplePostedLedger otherSecret sampleSecret
    rfl (by decide)
  exact ⟨(h.2 rfl).1, (h.2 rfl).2 (by decide)⟩

/-- C3: posting while the slot is occupied fails with `AlreadyOccupied` and
returns the entire snapshot exactly as it was before the call. -/
theorem post_occupied_fails (credential : Bytes) (content : String)
    (timestamp : Nat) (st : Ledger) (hocc : st.confession0_is_some = true) :
    postConfession credential content timestamp st =
      (st, some ConfessionError.alreadyOccupied) := by
  simp [postConfession, hocc]

/-- Witness for C3: a second post against the once-posted board fails with
`AlreadyOccupied` and leaves the ledger unchanged. -/
theorem post_occupied_fails_witness :
    postConfession otherSecret "again" 2000 samplePostedLedger =
      (samplePostedLedger, some ConfessionError.alreadyOccupied) :=
  post_occupied_fails otherSecret "again" 2000 samplePostedLedger rfl

/-- C4: voting (in either direction) while the slot is empty fails with
`NoActiveConfession` and returns the snapshot unchanged. -/
theorem vote_empty_fails (isUpvote : Bool) (st : Ledger)
    (hemp : st.confession0_is_some = false) :
    vote isUpvote st = (st, some ConfessionError.noActiveConfession) := by
  simp [vote, hemp]

/-- Witness for C4: both vote directions fail on the genesis board and leave
it unchanged. -/
theorem vote_empty_fails_witness :
    vote true genesisLedger = (genesisLedger, some ConfessionError.noActiveConfession)
    ∧ vote false genesisLedger = (genesisLedger, some ConfessionError.noActiveConfession) :=
  ⟨vote_empty_fails true genesisLedger rfl, vote_empty_fails false genesisLedger rfl⟩

/-- Helper: one applied operation never decreases the confession count. -/
theorem applyOp_count_le (op : Op) (st : Ledger) :
    st.confessionCount ≤ ((applyOp op st).1).confessionCount := by
  cases op with
  | post credential content timestamp =>
      by_cases h : st.confession0_is_some <;>
        simp [applyOp, postConfession, h, Nat.le_succ]
  | vote isUpvote =>
      by_cases h : st.confession0_is_some <;>
        cases isUpvote <;> simp [applyOp, vote, h]

/-- Helper: running a sequence never decreases the confession count. -/
theorem runOps_count_le (ops : List Op) (st : Ledger) :
    st.confessionCount ≤ (runOps ops st).confessionCount := by
  induction ops generalizing st with
  | nil => exact Nat.le_refl _
  | cons op ops ih =>
      exact Nat.le_trans (applyOp_count_le op st) (ih (applyOp op st).1)

/-- Helper: running an appended sequence runs the two parts in order. -/
theorem runOps_append (ops more : List Op) (st : Ledger) :
    runOps (ops ++ more) st = runOps more (runOps ops st) := by
  induction ops generalizing st with
  | nil => rfl
  | cons op ops ih => simp [runOps, ih]

/-- C5: `total_posts` never decreases under any operation; every vote and
every failed post leave it unchanged; every successful post increments it by
exactly 1; and along any sequence of operations from genesis the count is
monotone. -/
theorem totalPosts_monotone_and_increments :
    (∀ (op : Op) (st : Ledger),
        st.confessionCount ≤ ((applyOp op st).1).confessionCount)
    ∧ (∀ (isUpvote : Bool) (st : Ledger),
        ((vote isUpvote st).1).confessionCount = st.confessionCount)
    ∧ (∀ (credential : Bytes) (content : String) (timestamp : Nat) (st : Ledger),
        (postConfession credential content timestamp st).2 ≠ none →
          ((postConfession credential content timestamp st).1).confessionCount
            = st.confessionCount)
    ∧ (∀ (credential : Bytes) (content : String) (timestamp : Nat) (st : Ledger),
        (postConfession credential content timestamp st).2 = none →
          ((postConfession credential content timestamp st).1).confessionCount
            = st.confessionCount + 1)
    ∧ (∀ (ops more : List Op),
        (runOps ops genesisLedger).confessionCount
          ≤ (runOps (ops ++ more) genesisLedger).confessionCount) := by
  refine ⟨applyOp_count_le, ?_, ?_, ?_, ?_⟩
  · intro isUpvote st
    by_cases h : st.confession0_is_some <;> cases isUpvote <;> simp [vote, h]
  · intro credential content timestamp st hfail
    by_cases h : st.confession0_is_some
    · simp [postConfession, h]
    · simp [postConfession, h] at hfail
  · intro credential content timestamp st hok
    by_cases h : st.confession0_is_some
    · simp [postConfession, h] at hok
    · simp [postConfession, h]
  · intro ops more
    rw [runOps_append]
    exact runOps_count_le more (runOps ops genesisLedger)

/-- Witness for C5: a vote keeps the count, a post against an occupied board
keeps the count, and the first post increments it from 0 to 1. -/
theorem totalPosts_monotone_witness :
    genesisLedger.confessionCount
        ≤ ((applyOp (Op.vote true) genesisLedger).1).confessionCount
    ∧ ((postConfession otherSecret "again" 2000 samplePostedLedger).1).confessionCount
        = samplePostedLedger.confessionCount
    ∧ ((postConfession sampleSecret "hello" 1000 genesisLedger).1).confessionCount
        = genesisLedger.confessionCount + 1 :=
  ⟨totalPosts_monotone_and_increments.1 (Op.vote true) genesisLedger,
   totalPosts_monotone_and_increments.2.2.1 otherSecret "again" 2000
     samplePostedLedger (by decide),
   totalPosts_monotone_and_increments.2.2.2.1 sampleSecret "hello" 1000
     genesisLedger (by decide)⟩

/-- C6: posting "hello" at t=1000 on the genesis board succeeds and yields
an occupied snapshot with content "hello", both tallies zero and
`total_posts = 1`; in general every successful post resets both tallies to
zero. -/
theorem post_resets_tallies :
    ((postConfession sampleSecret "hello" 1000 genesisLedger).2 = none
      ∧ samplePostedLedger.confession0_is_some = true
      ∧ samplePostedLedger.confession0_value = "hello"
      ∧ samplePostedLedger.confession0Upvotes = 0
      ∧ samplePostedLedger.confession0Downvotes = 0
      ∧ samplePostedLedger.confessionCount = 1)
    ∧ (∀ (credential : Bytes) (content : String) (timestamp : Nat) (st : Ledger),
        (postConfession credential content timestamp st).2 = none →
          ((postConfession credential content timestamp st).1).confession0Upvotes = 0
          ∧ ((postConfession credential content timestamp st).1).confession0Downvotes
              = 0) := by
  refine ⟨by decide, ?_⟩
  intro credential content timestamp st hok
  by_cases h : st.confession0_is_some
  · simp [postConfession, h] at hok
  · simp [postConfession, h]

/-- Witness for C6: a successful post on the genesis board has both tallies
zero. -/
theorem post_resets_tallies_witness :
    ((postConfession otherSecret "next" 5 genesisLedger).1).confession0Upvotes = 0
    ∧ ((postConfession otherSecret "next" 5 genesisLedger).1).confession0Downvotes
        = 0 :=
  post_resets_tallies.2 otherSecret "next" 5 genesisLedger (by decide)

/-- C7: on an occupied board, an upvote increments `upvotes` by exactly 1
leaving `downvotes` unchanged and a downvote increments `downvotes` by
exactly 1 leaving `upvotes` unchanged, with no bound on repetition; in the
scenario post, up, down, up from genesis the tallies end at 2 and 1. -/
theorem vote_increments_single_tally :
    (∀ st : Ledger, st.confession0_is_some = true →
        ((vote true st).1.confession0Upvotes = st.confession0Upvotes + 1
          ∧ (vote true st).1.confession0Downvotes = st.confession0Downvotes
          ∧ (vote true st).2 = none)
        ∧ ((vote false st).1.confession0Downvotes = st.confession0Downvotes + 1
          ∧ (vote false st).1.confession0Upvotes = st.confession0Upvotes
          ∧ (vote false st).2 = none))
    ∧ ((runOps [Op.post sampleSecret "hello" 1000, Op.vote true, Op.vote false,
          Op.vote true] genesisLedger).confession0Upvotes = 2
      ∧ (runOps [Op.post sampleSecret "hello" 1000, Op.vote true, Op.vote false,
          Op.vote true] genesisLedger).confession0Downvotes = 1) := by
  refine ⟨?_, by decide⟩
  intro st h
  simp [vote, h]

/-- Witness for C7: voting on the once-posted board increments exactly the
chosen tally. -/
theorem vote_increments_single_tally_witness :
    (vote true samplePostedLedger).1.confession0Upvotes
        = samplePostedLedger.confession0Upvotes + 1
    ∧ (vote false samplePostedLedger).1.confession0Downvotes
        = samplePostedLedger.confession0Downvotes + 1 :=
  ⟨((vote_increments_single_tally.1 samplePostedLedger rfl).1).1,
   ((vote_increments_single_tally.1 samplePostedLedger rfl).2).1⟩

/-- C8: the identity deriver is a pure deterministic function — equal inputs
give equal tags — and, under the idealized collision-free model, distinct
slot ids give distinct tags for a fixed credential. -/
theorem anonymousId_deterministic_and_slot_distinct
    (credential : Bytes) (s1 s2 : Nat) :
    anonymousId credential s1 = anonymousId credential s1
    ∧ (s1 ≠ s2 → anonymousId credential s1 ≠ anonymousId credential s2) :=
  ⟨rfl, fun hne he => hne (anonymousId_inj he).2⟩

/-- Witness for C8: at the sample credential, slot ids 0 and 1 give distinct
tags. -/
theorem anonymousId_deterministic_witness :
    anonymousId sampleSecret 0 = anonymousId sampleSecret 0
    ∧ anonymousId sampleSecret 0 ≠ anonymousId sampleSecret 1 :=
  ⟨(anonymousId_deterministic_and_slot_distinct sampleSecret 0 1).1,
   (anonymousId_deterministic_and_slot_distinct sampleSecret 0 1).2 (by decide)⟩

/-- C9: the private-state accessor is idempotent: a first call on an empty
store creates and stores a secret of the created length (32 bytes for the
source's `randomBytes(32)`), any call on a populated store returns the
stored value and leaves the store unchanged, and a second call after any
first call returns the same value and store. -/
theorem resolvePrivateState_idempotent (fresh1 fresh2 : Bytes)
    (store : Option ConfessionPrivateState) (hlen : fresh1.length = 32) :
    ((resolvePrivateState fresh1 none).1.secretKey.length = 32
      ∧ (resolvePrivateState fresh1 none).2
          = some (resolvePrivateState fresh1 none).1)
    ∧ (∀ ps : ConfessionPrivateState,
        resolvePrivateState fresh2 (some ps) = (ps, some ps))
    ∧ ((resolvePrivateState fresh2 (resolvePrivateState fresh1 store).2).1
          = (resolvePrivateState fresh1 store).1
      ∧ (resolvePrivateState fresh2 (resolvePrivateState fresh1 store).2).2
          = (resolvePrivateState fresh1 store).2) := by
  refine ⟨⟨hlen, rfl⟩, fun ps => rfl, ?_⟩
  cases store <;> simp [resolvePrivateState, createConfessionPrivateState]

/-- Witness for C9: a fresh store populated from 32 random bytes holds a
32-byte secret, and a repeated call returns it unchanged. -/
theorem resolvePrivateState_idempotent_witness :
    (resolvePrivateState (List.replicate 32 7) none).1.secretKey.length = 32
    ∧ (resolvePrivateState [9]
        (resolvePrivateState (List.replicate 32 7) none).2).1
          = (resolvePrivateState (List.replicate 32 7) none).1 :=
  ⟨((resolvePrivateState_idempotent (List.replicate 32 7) [9] none
      (by simp)).1).1,
   ((resolvePrivateState_idempotent (List.replicate 32 7) [9] none
      (by simp)).2.2).1⟩

/-- C10: when the timestamp argument is omitted, the public post API uses the
current wall-clock milliseconds (`BigInt(Date.now())`, modelled as `now`) as
the stored `posted_at`, and posting on an empty board succeeds. -/
theorem apiPost_default_timestamp (credential : Bytes) (content : String)
    (now : Nat) (st : Ledger) (hemp : st.confession0_is_some = false) :
    (apiPostConfession credential content none now st).2 = none
    ∧ ((apiPostConfession credential content none now st).1).confession0Timestamp
        = now := by
  simp [apiPostConfession, postConfession, hemp]

/-- Witness for C10: posting with an omitted timestamp at clock 12345 stores
12345. -/
theorem apiPost_default_timestamp_witness :
    ((apiPostConfession sampleSecret "hi" none 12345 genesisLedger).1).confession0Timestamp
        = 12345 :=
  (apiPost_default_timestamp sampleSecret "hi" 12345 genesisLedger rfl).2
